import Mathlib

/-!
# Verification of the AI Job Application Helper (Streamlit app)

A shallow embedding of the pure logic of `PythonProject16/app.py`:
Python string manipulation is modelled over `List Char` with structural
recursion (so that every definition evaluates inside the kernel), external
calls (HTTP, Google Sheets, the generative-model API, PDF extraction) are
modelled as explicit `Except`-valued inputs, and Streamlit session state is
passed explicitly.
-/

namespace JobApp

/-! ## Python string primitives

Python `str` operations used by the app, re-implemented faithfully over
`List Char` / `String`.  All recursions are structural so concrete inputs
reduce inside the kernel. -/

/-- Whitespace characters stripped by Python `str.strip()` (ASCII range). -/
def isPySpace (c : Char) : Bool :=
  c == ' ' || c == '\t' || c == '\n' || c == '\r' || c == Char.ofNat 11 || c == Char.ofNat 12

/-- Python `s.strip()`: drop whitespace from both ends. -/
def pyStrip (s : String) : String :=
  String.mk (((s.data.dropWhile isPySpace).reverse.dropWhile isPySpace).reverse)

/-- Python `s.lower()` (ASCII letters, which is all the app compares). -/
def pyLower (s : String) : String :=
  String.mk (s.data.map Char.toLower)

/-- `listLeads pre l` is true when `pre` is a leading run of `l`
(the list-level content of Python `l.startswith(pre)`). -/
def listLeads : List Char → List Char → Bool
  | [], _ => true
  | _ :: _, [] => false
  | p :: ps, c :: cs => p == c && listLeads ps cs

/-- `listWithin pat l` is true when `pat` occurs contiguously inside `l`
(the list-level content of Python `pat in l`). -/
def listWithin (pat : List Char) : List Char → Bool
  | [] => pat.isEmpty
  | c :: cs => listLeads pat (c :: cs) || listWithin pat cs

/-- Python `s.startswith(pre)`. -/
def pyStartsWith (s pre : String) : Bool := listLeads pre.data s.data

/-- Python `suf == s[-len(suf):]`, i.e. `s.endswith(suf)`. -/
def pyEndsWith (s suf : String) : Bool := listLeads suf.data.reverse s.data.reverse

/-- Python `sub in s` (substring test). -/
def pyContains (s sub : String) : Bool := listWithin sub.data s.data

/-- Python `s.rstrip(chars)`: drop characters from the right while they are
members of `chars`. -/
def pyRstrip (chars : List Char) (s : String) : String :=
  String.mk ((s.data.reverse.dropWhile (fun c => chars.contains c)).reverse)

/-- Helper of `pySplitChar`: split a character list at every occurrence of
`c`; always returns a non-empty list of pieces. -/
def splitCharAux (c : Char) : List Char → List (List Char)
  | [] => [[]]
  | x :: xs =>
    match splitCharAux c xs with
    | [] => [[]]
    | h :: t => if x == c then [] :: h :: t else (x :: h) :: t

/-- Python `s.split(c)` for a one-character separator (the app splits on
`'\n'` and `','` only). -/
def pySplitChar (c : Char) (s : String) : List String :=
  (splitCharAux c s.data).map String.mk

/-- Python `sep.join(xs)`. -/
def pyJoin (sep : String) : List String → String
  | [] => ""
  | [x] => x
  | x :: y :: xs => x ++ sep ++ pyJoin sep (y :: xs)

/-- Fuel-driven core of `pyReplace`; replaces occurrences of `pat`
left-to-right, non-overlapping, exactly as Python `str.replace` does for a
non-empty pattern.  Each step consumes at least one character, so fuel equal
to the input length never runs out. -/
def replaceAux (pat rep : List Char) : Nat → List Char → List Char
  | _, [] => []
  | 0, l => l
  | fuel + 1, c :: cs =>
    if listLeads pat (c :: cs) then
      rep ++ replaceAux pat rep fuel (List.drop (pat.length - 1) cs)
    else
      c :: replaceAux pat rep fuel cs

/-- Python `s.replace(pat, rep)` for a non-empty pattern (the app only ever
replaces the non-empty literals `"Job Title:"` and `"Job Description:"`). -/
def pyReplace (s pat rep : String) : String :=
  if pat.data.isEmpty then s
  else String.mk (replaceAux pat.data rep.data s.data.length s.data)

/-- Decimal digit character. -/
def digitChar (d : Nat) : Char := Char.ofNat (48 + d)

/-- Fuel-driven decimal digits of a natural number, most significant first. -/
def natDigitsAux : Nat → Nat → List Char → List Char
  | 0, _, acc => acc
  | fuel + 1, n, acc =>
    if n < 10 then digitChar n :: acc
    else natDigitsAux fuel (n / 10) (digitChar (n % 10) :: acc)

/-- Decimal digits of a natural number, most significant first. -/
def natDigits (n : Nat) : List Char := natDigitsAux (n + 1) n []

/-- Fuel-driven core of `group3`. -/
def group3Aux : Nat → List Char → List Char
  | 0, l => l
  | fuel + 1, a :: b :: c :: d :: rest => a :: b :: c :: ',' :: group3Aux fuel (d :: rest)
  | _ + 1, l => l

/-- Insert a comma after every third character (input and output are the
reversed digit list). -/
def group3 (l : List Char) : List Char := group3Aux l.length l

/-- Python `f"{n:,.0f}"` for a whole number: decimal digits with thousands
separators. -/
def commaFmt (n : Nat) : String :=
  String.mk ((group3 (natDigits n).reverse).reverse)

/-- Python `str(n)` for a natural number. -/
def natToStr (n : Nat) : String := String.mk (natDigits n)

/-! ## Data model

A job is the dictionary returned by the JSearch API; the app reads it with
`job.get(key)` / `job.get(key, '')`, so every field is optional.  Salary
values are modelled as whole numbers (`job_min_salary` / `job_max_salary`);
`job_salary_period` is `none` both when the key is absent and when its value
is not a string, which is exactly the distinction
`isinstance(period_value, str)` makes. -/

structure Job where
  job_id : Option String := none
  job_title : Option String := none
  job_description : Option String := none
  employer_name : Option String := none
  job_city : Option String := none
  job_publisher : Option String := none
  job_apply_link : Option String := none
  job_min_salary : Option Nat := none
  job_max_salary : Option Nat := none
  job_salary_period : Option String := none
deriving DecidableEq, Repr

/-- A Python exception: either a `requests.exceptions.RequestException`
(the only class `search_jobs_api` catches) or any other exception. -/
inductive PyExc where
  | requestExc : String → PyExc
  | otherExc : String → PyExc
deriving DecidableEq, Repr

/-- `str(e)`: the message the app interpolates into its `st.error` calls. -/
def PyExc.msg : PyExc → String
  | .requestExc m => m
  | .otherExc m => m

/-- An outbound `requests.get` call: target URL and the `timeout=` value
passed to the HTTP client. -/
structure HttpGet where
  url : String
  timeout : Nat
deriving DecidableEq, Repr

/-- The single request `search_jobs_api` issues: endpoint, querystring
fields, API key header and the `timeout=` value. -/
structure SearchRequest where
  url : String
  query : String
  page : String
  num_pages : String
  date_posted : String
  remote_jobs_only : Option String
  api_key : String
  timeout : Nat
deriving DecidableEq, Repr

/-! ## Helper functions of the app

External effects are passed in as `Except PyExc`-valued arguments (the
outcome the third-party call would produce).  Each embedded function returns
its Python return value together with the list of messages shown via
`st.error`. -/

/-- `read_pdf(file)`: `extracted` is the outcome of
`PyPDF2.PdfReader(file)` + page-text extraction. -/
def read_pdf (extracted : Except PyExc String) : Option String × List String :=
  match extracted with
  | .ok text => (some text, [])
  | .error e => (none, ["Error reading PDF file: " ++ e.msg])

/-- The body of the `for line in lines[1:]` loop of
`fetch_job_details_from_url`: collect description lines, switching
`desc_started` on at each line that starts with `"Job Description:"`. -/
def descLoop : List String → Bool → List String
  | [], _ => []
  | line :: rest, started =>
    if pyStartsWith line "Job Description:" then
      pyStrip (pyReplace line "Job Description:" "") :: descLoop rest true
    else if started then
      pyStrip line :: descLoop rest true
    else
      descLoop rest started

/-- The parsing of the model reply inside `fetch_job_details_from_url`
(lines 53-71 of `app.py`): strip the reply, split on newlines, take the
title from the first line when it starts with `"Job Title:"`, and join the
description lines collected by `descLoop`. -/
def parse_job_reply (reply : String) : String × String :=
  let lines := pySplitChar '\n' (pyStrip reply)
  let job_title :=
    match lines with
    | [] => ""
    | l0 :: _ => if pyStartsWith l0 "Job Title:" then pyStrip (pyReplace l0 "Job Title:" "") else ""
  let job_description := pyJoin "\n" (descLoop (lines.drop 1) false)
  (job_title, job_description)

/-- `fetch_job_details_from_url(_model, url)`: `httpResp` is the outcome of
`requests.get(url, ..., timeout=15)` + `raise_for_status()` + scraping,
`modelResp` the outcome of `_model.generate_content(...)` (the model's
reply text).  Returns the `(title, description)` pair, the error messages
shown, and the `requests` calls issued. -/
def fetch_job_details_from_url (url : String) (httpResp : Except PyExc String)
    (modelResp : Except PyExc String) :
    (String × String) × List String × List HttpGet :=
  let calls : List HttpGet := [{ url := url, timeout := 15 }]
  match httpResp with
  | .error e => (("", ""), ["Error fetching or parsing URL: " ++ e.msg], calls)
  | .ok _pageContent =>
    match modelResp with
    | .error e => (("", ""), ["Error fetching or parsing URL: " ++ e.msg], calls)
    | .ok reply => (parse_job_reply reply, [], calls)

/-- The `full_location` string built at the top of `search_jobs_api`. -/
def full_location (location country : String) : String :=
  let fl := if location == "" then "" else location
  if country == "Any" then fl
  else (if fl == "" then fl else fl ++ ", ") ++ country

/-- The `query` string built by `search_jobs_api`. -/
def search_query (keywords location required_skills country : String) : String :=
  let fl := full_location location country
  let q := keywords
  let q := if fl == "" then q else q ++ " in " ++ fl
  if required_skills == "" then q else q ++ " with skills in " ++ required_skills

/-- `search_jobs_api(...)`: builds the query string and the single request,
then performs it (`resp` is the outcome of
`requests.get(..., timeout=20)` + `raise_for_status()` + `.json()`).
Only `requests.exceptions.RequestException` is caught; any other exception
propagates out of the function. -/
def search_jobs_api {α : Type} (keywords location api_key : String) (page : Nat)
    (required_skills : String) (remote_only : Bool) (date_posted country : String)
    (resp : Except PyExc α) :
    Except PyExc (Option α) × List String × List SearchRequest :=
  let req : SearchRequest :=
    { url := "https://jsearch.p.rapidapi.com/search"
      query := search_query keywords location required_skills country
      page := natToStr page
      num_pages := "1"
      date_posted := date_posted
      remote_jobs_only := if remote_only then some "true" else none
      api_key := api_key
      timeout := 20 }
  match resp with
  | .ok data => (.ok (some data), [], [req])
  | .error (.requestExc m) => (.ok none, ["API request failed: " ++ m], [req])
  | .error (.otherExc m) => (.error (.otherExc m), [], [req])

/-- Python truthiness of an optional number: `None` and `0` are falsy. -/
def pyTruthyNat : Option Nat → Bool
  | none => false
  | some n => n != 0

/-- The `period` suffix computed by `format_salary`:
`period_value.lower() if isinstance(period_value, str) else ''`, then
`" a {period.rstrip('ly')}"` when the period ends in `"ly"`, else
`" an {period}"`, and the empty string when `period` is falsy. -/
def periodSuffix (period_value : Option String) : String :=
  let period := match period_value with | some s => pyLower s | none => ""
  if period == "" then ""
  else if pyEndsWith period "ly" then " a " ++ pyRstrip ['l', 'y'] period
  else " an " ++ period

/-- `format_salary(job)` (lines 118-138 of `app.py`). -/
def format_salary (job : Job) : Option String :=
  let min_salary := job.job_min_salary
  let max_salary := job.job_max_salary
  if !pyTruthyNat min_salary && !pyTruthyNat max_salary then none
  else
    let period := periodSuffix job.job_salary_period
    if pyTruthyNat min_salary && pyTruthyNat max_salary then
      some ("$" ++ commaFmt (min_salary.getD 0) ++ " - $" ++ commaFmt (max_salary.getD 0) ++ period)
    else if pyTruthyNat max_salary then
      some ("Up to $" ++ commaFmt (max_salary.getD 0) ++ period)
    else if pyTruthyNat min_salary then
      some ("From $" ++ commaFmt (min_salary.getD 0) ++ period)
    else none

/-! ## Google Sheets functions

The worksheet is a list of rows, each a list of cell strings. -/

/-- `get_applied_job_ids(_client, sheet_url)`: `client` is whether
`get_gspread_client()` returned a client, `fetched` the outcome of
`open_by_url(...).worksheet("Jobs").col_values(1)`.  Returns the applied
job ids (the first column, Python wraps it in a `set`) and the error
messages shown. -/
def get_applied_job_ids (client : Bool) (fetched : Except PyExc (List String)) :
    List String × List String :=
  if !client then ([], [])
  else
    match fetched with
    | .ok column => (column, [])
    | .error e => ([], ["Could not read from Google Sheet: " ++ e.msg])

/-- The header row `log_applied_job` writes. -/
def logHeader : List String :=
  ["Job ID", "Date Applied", "Company", "Job Title", "Location", "Salary", "Source", "Link"]

/-- The row `log_applied_job` appends for a job: id, today's ISO date,
company, title, city, salary (or `"N/A"`), publisher, apply link. -/
def logRow (today : String) (job : Job) : List String :=
  [job.job_id.getD "", today, job.employer_name.getD "", job.job_title.getD "",
   job.job_city.getD "", (format_salary job).getD "N/A", job.job_publisher.getD "",
   job.job_apply_link.getD ""]

/-- `sheet.update('A1', [header])`: write the 8 header cells into `A1:H1`
(cells of row 1 beyond column H survive; an empty sheet gains row 1). -/
def setHeaderRow : List (List String) → List (List String)
  | [] => [logHeader]
  | r1 :: rest => (logHeader ++ r1.drop 8) :: rest

/-- The worksheet mutation performed by a successful `log_applied_job`
call (lines 172-191 of `app.py`): fix the header when row 1 is empty or
differs from `logHeader`, then append the job's row.  There is no check
whether the job's id already appears in the sheet. -/
def log_applied_job_sheet (sheet : List (List String)) (today : String) (job : Job) :
    List (List String) :=
  let row1 := sheet.headD []
  let sheet1 := if row1.isEmpty || row1 != logHeader then setHeaderRow sheet else sheet
  sheet1 ++ [logRow today job]

/-- `log_applied_job(client, sheet_url, job_data)`: returns the Boolean
result, the updated worksheet when the call succeeded, and the error
messages shown.  `fetched` is the outcome of opening the worksheet. -/
def log_applied_job (client : Bool) (fetched : Except PyExc (List (List String)))
    (today : String) (job : Job) :
    (Bool × Option (List (List String))) × List String :=
  if !client then ((false, none), [])
  else
    match fetched with
    | .ok sheet => ((true, some (log_applied_job_sheet sheet today job)), [])
    | .error e => ((false, none), ["Failed to log job to Google Sheet: " ++ e.msg])

/-! ## The search-results pipeline of `run_main_app` (lines 449-466) -/

/-- `job.get('job_id') not in applied_ids`, negated: whether the job's id is
a member of the applied set (`None` is never a member of a set of strings). -/
def optIdIn (id : Option String) (appliedIds : List String) : Bool :=
  match id with
  | none => false
  | some s => appliedIds.contains s

/-- `unapplied_results = [job for job in all_results if job.get('job_id')
not in applied_ids]`. -/
def unappliedResults (allResults : List Job) (appliedIds : List String) : List Job :=
  allResults.filter (fun job => !optIdIn job.job_id appliedIds)

/-- `excluded = [kw.strip().lower() for kw in params["exclude"].split(',')]`. -/
def excludedKeywords (exclude : String) : List String :=
  (pySplitChar ',' exclude).map (fun kw => pyLower (pyStrip kw))

/-- `any(kw in title or kw in description for kw in excluded)` with
`title`/`description` the lowercased `job.get(..., '')` values. -/
def jobExcluded (excluded : List String) (job : Job) : Bool :=
  let title := pyLower (job.job_title.getD "")
  let description := pyLower (job.job_description.getD "")
  excluded.any (fun kw => pyContains title kw || pyContains description kw)

/-- The `if params["exclude"]:` branch filling `st.session_state.live_jobs`:
keyword-exclusion filtering, skipped when the exclude string is empty. -/
def applyExcludeFilter (exclude : String) (jobs : List Job) : List Job :=
  if exclude == "" then jobs
  else jobs.filter (fun job => !jobExcluded (excludedKeywords exclude) job)

/-- The list stored into `st.session_state.live_jobs` after a successful
API response: de-duplication against the applied set, then keyword
exclusion. -/
def computeLiveJobs (allResults : List Job) (appliedIds : List String)
    (exclude : String) : List Job :=
  applyExcludeFilter exclude (unappliedResults allResults appliedIds)

/-! ## The password gate (`check_password`, lines 571-598) -/

/-- How a script run ends inside `check_password`: it either returns a
Boolean, or the run is aborted by `st.stop()` / `st.rerun()`. -/
inductive RunOutcome where
  | proceed : Bool → RunOutcome
  | halted : RunOutcome
deriving DecidableEq, Repr

/-- `check_password()` for one script run: `flag` is
`st.session_state.password_correct` on entry (initialised to `False` when
absent), `secret` the `APP_PASSWORD` secret (`none` when missing),
`entered` the text-input value and `clicked` whether the Login button was
pressed this run.  Returns the run outcome, the flag on exit and the error
messages shown. -/
def check_password (flag : Bool) (secret : Option String) (entered : String)
    (clicked : Bool) : RunOutcome × Bool × List String :=
  if flag then (.proceed true, flag, [])
  else
    match secret with
    | none => (.halted, flag, ["APP_PASSWORD secret not found. Please contact the administrator."])
    | some pw =>
      if clicked then
        if entered == pw then (.halted, true, [])
        else (.proceed false, flag, ["The password you entered is incorrect."])
      else (.proceed false, flag, [])

/-- The module-level `if check_password(): run_main_app()`: whether
`run_main_app` executes in this run. -/
def app_runs_main (flag : Bool) (secret : Option String) (entered : String)
    (clicked : Bool) : Bool :=
  match (check_password flag secret entered clicked).1 with
  | .proceed b => b
  | .halted => false

/-! ## Claim-side definitions

For claims C8 and C9 a second definition follows the claim's wording, to be
compared with the definition translated from the source. -/

/-- Remove one leading occurrence of `pre` from `s` (meant to be applied
when `pre` is a prefix of `s`). -/
def dropLead (s pre : String) : String := String.mk (s.data.drop pre.data.length)

/-- Claim C8's wording of the period suffix: "suffixed, when
`job_salary_period` is a string, by `" a <period>"` with trailing
`'l'`/`'y'` characters stripped when the period ends in `"ly"`, or
`" an <period>"` otherwise" (the period read lowercased, as the claim's
`"yearly"` example shows). -/
def periodSuffixClaimC8 (period_value : Option String) : String :=
  match period_value with
  | none => ""
  | some s =>
    let period := pyLower s
    if pyEndsWith period "ly" then " a " ++ pyRstrip ['l', 'y'] period
    else " an " ++ period

/-- Claim C8 as stated, as a function of the job. -/
def format_salary_claimC8 (job : Job) : Option String :=
  if !pyTruthyNat job.job_min_salary && !pyTruthyNat job.job_max_salary then none
  else
    let suffix := periodSuffixClaimC8 job.job_salary_period
    if pyTruthyNat job.job_min_salary && pyTruthyNat job.job_max_salary then
      some ("$" ++ commaFmt (job.job_min_salary.getD 0) ++ " - $" ++ commaFmt (job.job_max_salary.getD 0) ++ suffix)
    else if pyTruthyNat job.job_max_salary then
      some ("Up to $" ++ commaFmt (job.job_max_salary.getD 0) ++ suffix)
    else
      some ("From $" ++ commaFmt (job.job_min_salary.getD 0) ++ suffix)

/-- The period suffix of the amended claim C8: as claimed, but only when
the (lowercased) period string is non-empty. -/
def periodSuffixAmendedC8 (period_value : Option String) : String :=
  match period_value with
  | none => ""
  | some s =>
    let period := pyLower s
    if period == "" then ""
    else if pyEndsWith period "ly" then " a " ++ pyRstrip ['l', 'y'] period
    else " an " ++ period

/-- Amended claim C8 as a function of the job. -/
def format_salary_amendedC8 (job : Job) : Option String :=
  if !pyTruthyNat job.job_min_salary && !pyTruthyNat job.job_max_salary then none
  else
    let suffix := periodSuffixAmendedC8 job.job_salary_period
    if pyTruthyNat job.job_min_salary && pyTruthyNat job.job_max_salary then
      some ("$" ++ commaFmt (job.job_min_salary.getD 0) ++ " - $" ++ commaFmt (job.job_max_salary.getD 0) ++ suffix)
    else if pyTruthyNat job.job_max_salary then
      some ("Up to $" ++ commaFmt (job.job_max_salary.getD 0) ++ suffix)
    else
      some ("From $" ++ commaFmt (job.job_min_salary.getD 0) ++ suffix)

/-- Claim C9's wording of the description: the newline-join of the lines
starting from the first later line that starts with `"Job Description:"`,
that prefix removed from that (stripped) line and every following line
stripped; empty when no such line exists. -/
def descClaimC9 : List String → String
  | [] => ""
  | line :: rest =>
    if pyStartsWith line "Job Description:" then
      pyJoin "\n" (pyStrip (dropLead line "Job Description:") :: rest.map pyStrip)
    else descClaimC9 rest

/-- Claim C9 as stated: title from the first line with the `"Job Title:"`
prefix removed and stripped, description per `descClaimC9`. -/
def parse_job_reply_claimC9 (reply : String) : String × String :=
  let lines := pySplitChar '\n' (pyStrip reply)
  let title :=
    match lines with
    | [] => ""
    | l0 :: _ => if pyStartsWith l0 "Job Title:" then pyStrip (dropLead l0 "Job Title:") else ""
  (title, descClaimC9 (lines.drop 1))

/-- How each line after the first matched one is rendered in the amended
claim C9: stripped, and with all occurrences of `"Job Description:"`
removed first when the line starts with that prefix. -/
def procDescLineC9 (line : String) : String :=
  if pyStartsWith line "Job Description:" then pyStrip (pyReplace line "Job Description:" "")
  else pyStrip line

/-- The description of the amended claim C9: the newline-join of the lines
starting from the first later line that starts with `"Job Description:"`,
each rendered by `procDescLineC9`. -/
def descAmendedC9 : List String → String
  | [] => ""
  | line :: rest =>
    if pyStartsWith line "Job Description:" then
      pyJoin "\n" (pyStrip (pyReplace line "Job Description:" "") :: rest.map procDescLineC9)
    else descAmendedC9 rest

/-- Amended claim C9: title from the first line with all occurrences of
`"Job Title:"` removed and stripped, description per `descAmendedC9`. -/
def parse_job_reply_amendedC9 (reply : String) : String × String :=
  let lines := pySplitChar '\n' (pyStrip reply)
  let title :=
    match lines with
    | [] => ""
    | l0 :: _ => if pyStartsWith l0 "Job Title:" then pyStrip (pyReplace l0 "Job Title:" "") else ""
  (title, descAmendedC9 (lines.drop 1))

/-! ## Concrete instances used by witnesses and counterexamples -/

/-- A job with id `"A"`. -/
def jobA : Job := { job_id := some "A" }

/-- A job titled `"Dev"`. -/
def jobDev : Job := { job_title := some "Dev" }

/-- A job titled `"Team Lead"`. -/
def jobLead : Job := { job_title := some "Team Lead" }

/-- A job with id `"Y"`. -/
def jobY : Job := { job_id := some "Y" }

/-- A worksheet that already contains a correct header and one row for job
id `"X"`. -/
def exSheetC2 : List (List String) :=
  [logHeader, ["X", "2026-01-01", "Acme", "Dev", "Toronto", "N/A", "LinkedIn", "http"]]

/-- The job with id `"X"` that `exSheetC2` already records. -/
def exJobC2 : Job :=
  { job_id := some "X", employer_name := some "Acme", job_title := some "Dev",
    job_city := some "Toronto", job_publisher := some "LinkedIn", job_apply_link := some "http" }

/-- A job whose salary period is the empty string. -/
def exJobC8 : Job := { job_min_salary := some 1000, job_salary_period := some "" }

/-- A model reply whose first line contains `"Job Title:"` twice and which
has two lines starting with `"Job Description:"`. -/
def exReplyC9 : String :=
  "Job Title: AJob Title:B\nJob Description: C\nJob Description: D"

/-! ## Helper lemmas -/

/-- `log_applied_job_sheet` with its `let` bindings unfolded. -/
theorem log_applied_job_sheet_eq (sheet : List (List String)) (today : String) (job : Job) :
    log_applied_job_sheet sheet today job =
      (if (sheet.headD []).isEmpty || sheet.headD [] != logHeader then setHeaderRow sheet
       else sheet) ++ [logRow today job] := rfl

/-- Membership survives the keyword-exclusion filter backwards. -/
theorem mem_of_mem_applyExcludeFilter {exclude : String} {jobs : List Job} {job : Job}
    (h : job ∈ applyExcludeFilter exclude jobs) : job ∈ jobs := by
  unfold applyExcludeFilter at h
  split at h
  · exact h
  · exact (List.mem_filter.mp h).1

/-! ## Claims -/

/-- Claim C1: every job placed into the displayed results list
(`st.session_state.live_jobs`) has a `job_id` that is not a member of the
set of already-applied job ids fetched from the Google Sheet by
`get_applied_job_ids`; a job whose id is in that set is never shown. -/
theorem c1_no_applied_job_shown (client : Bool) (fetched : Except PyExc (List String))
    (allResults : List Job) (exclude : String) (job : Job)
    (h : job ∈ computeLiveJobs allResults (get_applied_job_ids client fetched).1 exclude) :
    optIdIn job.job_id (get_applied_job_ids client fetched).1 = false := by
  have h1 : job ∈ unappliedResults allResults (get_applied_job_ids client fetched).1 :=
    mem_of_mem_applyExcludeFilter h
  have h2 := (List.mem_filter.mp h1).2
  simpa using h2

/-- Witness for C1 at a concrete search: job `"A"` survives when the sheet
lists only `"B"`, and its id is not in the applied set. -/
theorem c1_no_applied_job_shown_witness :
    optIdIn jobA.job_id (get_applied_job_ids true (Except.ok ["B"])).1 = false :=
  c1_no_applied_job_shown true (Except.ok ["B"]) [jobA] "" jobA (by decide)

/-- Claim C6: when the exclude-keywords string is non-empty, a job appears
in the displayed list only if none of the comma-separated keywords (each
trimmed and lowercased) occurs as a substring of the job's lowercased title
or description; when the exclude string is empty, the filter removes
nothing. -/
theorem c6_exclude_keyword_filtering (allResults : List Job) (appliedIds : List String)
    (exclude : String) :
    (exclude = "" → computeLiveJobs allResults appliedIds exclude =
      unappliedResults allResults appliedIds) ∧
    (exclude ≠ "" → ∀ job ∈ computeLiveJobs allResults appliedIds exclude,
      ∀ kw ∈ excludedKeywords exclude,
        pyContains (pyLower (job.job_title.getD "")) kw = false ∧
        pyContains (pyLower (job.job_description.getD "")) kw = false) := by
  constructor
  · intro h
    subst h
    simp [computeLiveJobs, applyExcludeFilter]
  · intro hne job hmem kw hkw
    unfold computeLiveJobs applyExcludeFilter at hmem
    rw [if_neg (by simpa using hne)] at hmem
    have h2 : jobExcluded (excludedKeywords exclude) job = false := by
      simpa using (List.mem_filter.mp hmem).2
    unfold jobExcluded at h2
    have h3 := List.any_eq_false.mp h2 kw hkw
    simp only [Bool.or_eq_true, not_or, Bool.not_eq_true] at h3
    exact h3

/-- Witness for C6: with exclude string `"Lead"`, the surviving job
`jobDev` contains no excluded keyword; with the empty exclude string the
de-duplicated list passes through unchanged. -/
theorem c6_exclude_keyword_filtering_witness :
    computeLiveJobs [jobLead, jobDev] [] "" = unappliedResults [jobLead, jobDev] [] ∧
    (pyContains (pyLower (jobDev.job_title.getD "")) "lead" = false ∧
     pyContains (pyLower (jobDev.job_description.getD "")) "lead" = false) :=
  ⟨(c6_exclude_keyword_filtering [jobLead, jobDev] [] "").1 rfl,
   (c6_exclude_keyword_filtering [jobLead, jobDev] [] "Lead").2 (by decide) jobDev
     (by decide) "lead" (by decide)⟩

/-- Claim C4: `run_main_app` executes only when `check_password` returns
`True`; `check_password` returns `True` only when the session flag
`password_correct` is set; the flag becomes set only when the entered
password equals the `APP_PASSWORD` secret; a wrong password leaves the flag
`False` and only displays an error message. -/
theorem c4_password_gate (flag : Bool) (secret : Option String) (entered : String)
    (clicked : Bool) :
    (app_runs_main flag secret entered clicked = true ↔ flag = true) ∧
    ((check_password flag secret entered clicked).2.1 = true ↔
      (flag = true ∨ (clicked = true ∧ secret = some entered))) ∧
    (∀ pw, flag = false → secret = some pw → clicked = true → entered ≠ pw →
      (check_password flag secret entered clicked).2.1 = false ∧
      (check_password flag secret entered clicked).2.2 =
        ["The password you entered is incorrect."]) := by
  cases flag <;> rcases secret with _ | pw <;> cases clicked <;>
    simp [app_runs_main, check_password]
  all_goals by_cases h : entered = pw <;> simp [h, eq_comm]

/-- Witness for C4: a wrong password at a concrete state leaves the flag
unset and shows the error message. -/
theorem c4_password_gate_witness :
    (check_password false (some "hunter2") "wrong" true).2.1 = false ∧
    (check_password false (some "hunter2") "wrong" true).2.2 =
      ["The password you entered is incorrect."] :=
  (c4_password_gate false (some "hunter2") "wrong" true).2.2 "hunter2" rfl rfl rfl (by decide)

/-- Claim C7: every outbound HTTP request carries a fixed timeout — 15
seconds for the job-posting scrape in `fetch_job_details_from_url`, 20
seconds for the search request in `search_jobs_api` — and each invocation
of either function issues exactly one HTTP request, never retried. -/
theorem c7_single_request_fixed_timeout :
    (∀ (url : String) (httpResp modelResp : Except PyExc String),
      ((fetch_job_details_from_url url httpResp modelResp).2.2).map
          (fun c => (c.url, c.timeout)) = [(url, 15)]) ∧
    (∀ (α : Type) (keywords location api_key : String) (page : Nat) (skills : String)
        (remote : Bool) (date_posted country : String) (resp : Except PyExc α),
      ((search_jobs_api keywords location api_key page skills remote date_posted country
          resp).2.2).map (fun r => (r.url, r.timeout)) =
        [("https://jsearch.p.rapidapi.com/search", 20)]) := by
  constructor
  · intro url httpResp modelResp
    cases httpResp with
    | error e => rfl
    | ok page =>
      cases modelResp with
      | error e => rfl
      | ok reply => rfl
  · intro α keywords location api_key page skills remote date_posted country resp
    cases resp with
    | ok d => rfl
    | error e =>
      cases e with
      | requestExc m => rfl
      | otherExc m => rfl

/-- Counterexample to claim C3: `search_jobs_api` does not catch every
exception — an exception that is not a `requests.exceptions.RequestException`
(here raised by the wrapped call) propagates instead of being turned into
`None`. -/
theorem c3_counterexample :
    (search_jobs_api "dev" "" "key" 1 "" false "all" "Any"
        (Except.error (PyExc.otherExc "boom") : Except PyExc Unit)).1 =
      Except.error (PyExc.otherExc "boom") ∧
    (search_jobs_api "dev" "" "key" 1 "" false "all" "Any"
        (Except.error (PyExc.otherExc "boom") : Except PyExc Unit)).1 ≠
      Except.ok none := by
  refine ⟨rfl, ?_⟩
  intro h
  exact Except.noConfusion h

/-- Amended claim C3: `read_pdf`, `fetch_job_details_from_url`,
`get_applied_job_ids` and `log_applied_job` catch any exception from the
wrapped call, display its string representation and return the
empty/default value (`None`, `("", "")`, the empty set, `False`);
`search_jobs_api` does the same (returning `None`) only for
`requests.exceptions.RequestException` and lets any other exception
propagate; no call is retried. -/
theorem c3_error_wrappers (e : PyExc) (m url today page : String)
    (modelResp : Except PyExc String) (job : Job)
    (keywords location api_key skills date_posted country : String) (pg : Nat)
    (remote : Bool) :
    read_pdf (Except.error e) = (none, ["Error reading PDF file: " ++ e.msg]) ∧
    fetch_job_details_from_url url (Except.error e) modelResp =
      (("", ""), ["Error fetching or parsing URL: " ++ e.msg], [{ url := url, timeout := 15 }]) ∧
    fetch_job_details_from_url url (Except.ok page) (Except.error e) =
      (("", ""), ["Error fetching or parsing URL: " ++ e.msg], [{ url := url, timeout := 15 }]) ∧
    get_applied_job_ids true (Except.error e) =
      ([], ["Could not read from Google Sheet: " ++ e.msg]) ∧
    log_applied_job true (Except.error e) today job =
      ((false, none), ["Failed to log job to Google Sheet: " ++ e.msg]) ∧
    (search_jobs_api keywords location api_key pg skills remote date_posted country
        (Except.error (PyExc.requestExc m) : Except PyExc Unit)).1 = Except.ok none ∧
    (search_jobs_api keywords location api_key pg skills remote date_posted country
        (Except.error (PyExc.requestExc m) : Except PyExc Unit)).2.1 =
      ["API request failed: " ++ m] ∧
    (search_jobs_api keywords location api_key pg skills remote date_posted country
        (Except.error (PyExc.otherExc m) : Except PyExc Unit)).1 =
      Except.error (PyExc.otherExc m) :=
  ⟨rfl, rfl, rfl, rfl, rfl, rfl, rfl, rfl⟩

/-- Counterexample to claim C2: `log_applied_job` performs no uniqueness
check — logging a job whose id (`"X"`) already has a row in the worksheet
succeeds and appends a second row with the same job id. -/
theorem c2_counterexample :
    (log_applied_job true (Except.ok exSheetC2) "2026-10-12" exJobC2).1.1 = true ∧
    ((((log_applied_job true (Except.ok exSheetC2) "2026-10-12" exJobC2).1.2).getD []).filter
        (fun r => r.headD "" == "X")).length = 2 := by
  constructor
  · rfl
  · decide

/-- Amended claim C2: `log_applied_job` appends unconditionally and scans
nothing; uniqueness-by-job-id holds only conditionally — when the job's id
does not already head a row of the worksheet (and is not the literal
`"Job ID"` header cell), the logged worksheet has exactly one row with
that id.  The linear scan of the spec is the display-time filter of
`run_main_app`, not part of `log_applied_job`. -/
theorem c2_log_unique_when_fresh (sheet : List (List String)) (today : String) (job : Job)
    (h1 : ∀ r ∈ sheet, r.headD "" ≠ job.job_id.getD "")
    (h2 : job.job_id.getD "" ≠ "Job ID") :
    ((log_applied_job_sheet sheet today job).filter
        (fun r => r.headD "" == job.job_id.getD "")).length = 1 := by
  rw [log_applied_job_sheet_eq, List.filter_append]
  have hrow : List.filter (fun r => r.headD "" == job.job_id.getD "") [logRow today job] =
      [logRow today job] := by
    simp [logRow]
  have hnil : ∀ l : List (List String), (∀ r ∈ l, r.headD "" ≠ job.job_id.getD "") →
      List.filter (fun r => r.headD "" == job.job_id.getD "") l = [] := fun l hl =>
    List.filter_eq_nil_iff.mpr fun r hr => by simpa using hl r hr
  have hleft : List.filter (fun r => r.headD "" == job.job_id.getD "")
      (if (sheet.headD []).isEmpty || sheet.headD [] != logHeader then setHeaderRow sheet
       else sheet) = [] := by
    split
    · refine hnil _ ?_
      intro r hr
      cases sheet with
      | nil =>
        simp only [setHeaderRow, List.mem_singleton] at hr
        subst hr
        have hJ : logHeader.headD "" = "Job ID" := rfl
        rw [hJ]
        exact Ne.symm h2
      | cons r1 rest =>
        simp only [setHeaderRow, List.mem_cons] at hr
        rcases hr with hr | hr
        · subst hr
          have hJ : (logHeader ++ r1.drop 8).headD "" = "Job ID" := rfl
          rw [hJ]
          exact Ne.symm h2
        · exact h1 r (List.mem_cons_of_mem r1 hr)
    · exact hnil _ h1
  rw [hleft, hrow]
  rfl

/-- Witness for the amended C2: logging the fresh job id `"Y"` into
`exSheetC2` yields exactly one `"Y"` row. -/
theorem c2_log_unique_when_fresh_witness :
    ((log_applied_job_sheet exSheetC2 "2026-10-12" jobY).filter
        (fun r => r.headD "" == jobY.job_id.getD "")).length = 1 :=
  c2_log_unique_when_fresh exSheetC2 "2026-10-12" jobY (by decide) (by decide)

/-- Claim C5: a successful `log_applied_job` appends exactly the row
`[job id, date, company, title, location, salary or "N/A", source, link]`,
and first writes the header `logHeader` into row 1 whenever row 1 is empty
or differs from it (an already-correct header leaves the sheet untouched
apart from the appended row). -/
theorem c5_log_row_shape (sheet : List (List String)) (today : String) (job : Job) :
    (log_applied_job_sheet sheet today job).getLast? =
      some [job.job_id.getD "", today, job.employer_name.getD "", job.job_title.getD "",
        job.job_city.getD "", (format_salary job).getD "N/A", job.job_publisher.getD "",
        job.job_apply_link.getD ""] ∧
    (format_salary job = none →
      (log_applied_job_sheet sheet today job).getLast? =
        some [job.job_id.getD "", today, job.employer_name.getD "", job.job_title.getD "",
          job.job_city.getD "", "N/A", job.job_publisher.getD "",
          job.job_apply_link.getD ""]) ∧
    (sheet.headD [] = logHeader →
      log_applied_job_sheet sheet today job = sheet ++ [logRow today job]) ∧
    (sheet.headD [] ≠ logHeader →
      ((log_applied_job_sheet sheet today job).headD []).take 8 = logHeader) := by
  refine ⟨?_, ?_, ?_, ?_⟩
  · rw [log_applied_job_sheet_eq, List.getLast?_concat]
    rfl
  · intro hnone
    rw [log_applied_job_sheet_eq, List.getLast?_concat]
    simp [logRow, hnone]
  · intro hok
    rw [log_applied_job_sheet_eq, hok]
    rw [if_neg (by simp [logHeader])]
  · intro hne
    rw [log_applied_job_sheet_eq]
    have hbne : (sheet.headD [] != logHeader) = true := by simpa using hne
    rw [if_pos (by rw [hbne, Bool.or_true])]
    cases sheet with
    | nil => rfl
    | cons r1 rest =>
      simp only [setHeaderRow, List.cons_append, List.headD_cons]
      have h8 : logHeader.length = 8 := rfl
      rw [← h8]
      exact List.take_left _ _

/-- Witness for C5 at concrete sheets: an already-correct header is left
alone, and an empty sheet gets the header written into row 1. -/
theorem c5_log_row_shape_witness :
    log_applied_job_sheet exSheetC2 "2026-10-12" jobY = exSheetC2 ++ [logRow "2026-10-12" jobY] ∧
    ((log_applied_job_sheet ([] : List (List String)) "2026-10-12" jobY).headD []).take 8 =
      logHeader ∧
    (log_applied_job_sheet exSheetC2 "2026-10-12" jobY).getLast? =
      some [jobY.job_id.getD "", "2026-10-12", jobY.employer_name.getD "",
        jobY.job_title.getD "", jobY.job_city.getD "", "N/A", jobY.job_publisher.getD "",
        jobY.job_apply_link.getD ""] :=
  ⟨(c5_log_row_shape exSheetC2 "2026-10-12" jobY).2.2.1 (by decide),
   (c5_log_row_shape ([] : List (List String)) "2026-10-12" jobY).2.2.2 (by decide),
   (c5_log_row_shape exSheetC2 "2026-10-12" jobY).2.1 (by decide)⟩

/-- Counterexample to claim C8: when `job_salary_period` is the empty
string — a string, so the claim demands an `" an <period>"` suffix — the
code suffixes nothing, because `if period:` is false for the empty
string. -/
theorem c8_counterexample :
    format_salary exJobC8 = some "From $1,000" ∧
    format_salary_claimC8 exJobC8 = some "From $1,000 an " ∧
    format_salary exJobC8 ≠ format_salary_claimC8 exJobC8 :=
  ⟨by decide, by decide, by decide⟩

/-- The period suffix of the code equals the amended claim's suffix. -/
theorem periodSuffix_eq_amendedC8 (pv : Option String) :
    periodSuffix pv = periodSuffixAmendedC8 pv := by
  cases pv <;> rfl

/-- Amended claim C8: as claimed, except that the `" a <period>"` /
`" an <period>"` suffix is added only when `job_salary_period` is a
non-empty string (lowercased); an empty period string adds no suffix. -/
theorem c8_format_salary_amended (job : Job) :
    format_salary job = format_salary_amendedC8 job := by
  unfold format_salary format_salary_amendedC8
  rw [periodSuffix_eq_amendedC8]
  cases hmin : pyTruthyNat job.job_min_salary <;>
    cases hmax : pyTruthyNat job.job_max_salary <;> simp [hmin, hmax]

/-- Counterexample to claim C9: Python `str.replace` removes all
occurrences, not just the leading prefix, and later lines that start with
`"Job Description:"` also have the prefix removed; on `exReplyC9` the code
returns `("AB", "C\nD")` while the claim predicts
`("AJob Title:B", "C\nJob Description: D")`. -/
theorem c9_counterexample :
    parse_job_reply exReplyC9 = ("AB", "C\nD") ∧
    parse_job_reply_claimC9 exReplyC9 = ("AJob Title:B", "C\nJob Description: D") ∧
    parse_job_reply exReplyC9 ≠ parse_job_reply_claimC9 exReplyC9 :=
  ⟨by decide, by decide, by decide⟩

/-- Once the description has started, every remaining line is rendered by
`procDescLineC9`. -/
theorem descLoop_true_eq_map (l : List String) :
    descLoop l true = l.map procDescLineC9 := by
  induction l with
  | nil => rfl
  | cons line rest ih =>
    by_cases h : pyStartsWith line "Job Description:" = true <;>
      simp [descLoop, procDescLineC9, h, ih]

/-- The joined description of the code's loop equals the amended claim's
description. -/
theorem descLoop_join_eq_amendedC9 (l : List String) :
    pyJoin "\n" (descLoop l false) = descAmendedC9 l := by
  induction l with
  | nil => rfl
  | cons line rest ih =>
    by_cases h : pyStartsWith line "Job Description:" = true
    · simp [descLoop, descAmendedC9, h, descLoop_true_eq_map]
    · simp [descLoop, descAmendedC9, h, ih]

/-- Amended claim C9: the title is the first line with all occurrences of
`"Job Title:"` removed and stripped (when the first line starts with that
prefix); the description is the newline-join from the first later line
starting with `"Job Description:"`, where that line and every following
line starting with the prefix have all its occurrences removed, and every
joined line is stripped; empty when no later line starts with the
prefix. -/
theorem c9_parse_amended (reply : String) :
    parse_job_reply reply = parse_job_reply_amendedC9 reply := by
  unfold parse_job_reply parse_job_reply_amendedC9
  simp only [descLoop_join_eq_amendedC9]

/-- Claim C10: the query is the keywords, plus `" in <full_location>"`
when a location or a country other than `"Any"` is given — `full_location`
being the location, then `", "` and the country when the country differs
from `"Any"` — plus `" with skills in <skills>"` when skills are given; in
particular an empty country with a location yields a trailing `", "`. -/
theorem c10_query_construction (keywords location skills country : String) :
    (country = "Any" → full_location location country = location) ∧
    (country ≠ "Any" → location ≠ "" →
      full_location location country = location ++ ", " ++ country) ∧
    (country ≠ "Any" → location = "" → full_location location country = country) ∧
    (full_location location country ≠ "" → skills = "" →
      search_query keywords location skills country =
        keywords ++ " in " ++ full_location location country) ∧
    (full_location location country ≠ "" → skills ≠ "" →
      search_query keywords location skills country =
        keywords ++ " in " ++ full_location location country ++ " with skills in " ++ skills) ∧
    (full_location location country = "" → skills = "" →
      search_query keywords location skills country = keywords) ∧
    (full_location location country = "" → skills ≠ "" →
      search_query keywords location skills country = keywords ++ " with skills in " ++ skills) ∧
    (location ≠ "" → country = "" → full_location location country = location ++ ", ") := by
  refine ⟨?_, ?_, ?_, ?_, ?_, ?_, ?_, ?_⟩
  · intro h
    subst h
    by_cases hl : location = "" <;> simp [full_location, hl]
  · intro hc hl
    simp [full_location, hc, hl]
  · intro hc hl
    subst hl
    simp [full_location, hc]
  · intro hfl hs
    simp [search_query, hfl, hs]
  · intro hfl hs
    simp [search_query, hfl, hs]
  · intro hfl hs
    simp [search_query, hfl, hs]
  · intro hfl hs
    simp [search_query, hfl, hs]
  · intro hl hc
    subst hc
    simp [full_location, hl]

/-- Witness for C10 at a concrete search: a non-empty location with the
empty country string produces a location part with a trailing `", "`. -/
theorem c10_query_construction_witness :
    full_location "Toronto" "" = "Toronto" ++ ", " ∧
    search_query "dev" "Toronto" "" "" = "dev" ++ " in " ++ full_location "Toronto" "" :=
  ⟨(c10_query_construction "dev" "Toronto" "" "").2.2.2.2.2.2.2 (by decide) rfl,
   (c10_query_construction "dev" "Toronto" "" "").2.2.2.1 (by decide) rfl⟩

end JobApp

namespace JobApp

/-! ## Concrete evaluation checks

Anonymous sanity checks that the embedding computes what the Python
functions compute on small inputs (traced by hand against `app.py`). -/
example : pyStrip " a b " = "a b" := by decide
example : pyLower "AbC" = "abc" := by decide
example : pyStartsWith "Job Title: X" "Job Title:" = true := by decide
example : pyEndsWith "yearly" "ly" = true := by decide
example : pyContains "hello world" "lo w" = true := by decide
example : pyContains "hello" "xy" = false := by decide
example : pyRstrip ['l','y'] "yearly" = "year" := by decide
example : pySplitChar ',' "a, b,c" = ["a", " b", "c"] := by decide
example : pySplitChar ',' "" = [""] := by decide
example : pyJoin "\n" ["a", "b", "c"] = "a\nb\nc" := by decide
example : pyReplace "Job Title: AJob Title:B" "Job Title:" "" = " AB" := by decide
example : commaFmt 1000 = "1,000" := by decide
example : commaFmt 123 = "123" := by decide
example : commaFmt 1234567 = "1,234,567" := by decide
example : ("a" ++ "" : String) = "a" := by decide
example : format_salary { job_min_salary := some 50000, job_max_salary := some 70000, job_salary_period := some "YEARLY" } = some "$50,000 - $70,000 a year" := by decide
example : format_salary { job_max_salary := some 30, job_salary_period := some "hour" } = some "Up to $30 an hour" := by decide
example : format_salary { job_min_salary := some 0 } = none := by decide
example : format_salary { job_min_salary := some 1000, job_salary_period := some "" } = some "From $1,000" := by decide
example : parse_job_reply "Job Title: Dev\nJob Description: Build things\nMore text" =
  ("Dev", "Build things\nMore text") := by decide
example : parse_job_reply "no structure at all" = ("", "") := by decide
example : parse_job_reply "Job Title: AJob Title:B\nJob Description: C\nJob Description: D" =
  ("AB", "C\nD") := by decide
example : search_query "dev" "Toronto" "" "" = "dev in Toronto, " := by decide
example : search_query "dev" "Toronto" "sql" "CA" = "dev in Toronto, CA with skills in sql" := by decide
example : search_query "dev" "" "" "Any" = "dev" := by decide
example : search_query "dev" "" "" "US" = "dev in US" := by decide
example : log_applied_job_sheet [] "2026-10-12" { job_id := some "X" } = [logHeader, ["X", "2026-10-12", "", "", "", "N/A", "", ""]] := by decide
example : computeLiveJobs [{ job_id := some "A" }, { job_id := some "B" }] ["B"] "" = [{ job_id := some "A" }] := by decide
example : applyExcludeFilter "Lead, senior" [{ job_title := some "Team Lead" }, { job_title := some "Dev" }] = [{ job_title := some "Dev" }] := by decide

end JobApp
